import Mathlib

/-!
Verification of the GLES backend function factory
(`src/graph/backends/GLES/GCFunctionsFactory.cpp`) of the ComputeLibrary
graph subsystem.

The factory lowers computation-graph nodes into executable backend
functions.  We embed the data model (nodes, graph tensors, backing
tensors, the graph context) and each lowerer shallowly: fatal
`ARM_COMPUTE_ERROR` / `ARM_COMPUTE_ERROR_ON` aborts become `Except`
errors, the mutable datatype of a backing tensor becomes an explicit
environment `TensorEnv` mapping backing-tensor ids to datatypes, and a
constructed-and-configured backend function becomes a value of `GCFunc`
recording the kernel kind and the exact operands it was configured with.
-/

namespace ComputeLib

/-- Backend targets of the graph IR.
Modelled from the spec: the target enumeration is declared outside the
excerpt; the factory serves the GC (GLES) backend, `CL` and `NEON` are
the other backends named by the spec's cross-backend discussion. -/
inductive Target where
  | GC
  | CL
  | NEON
  deriving DecidableEq, Repr

/-- Tensor datatypes.
Modelled from the spec: the full enumeration lives outside the excerpt;
`QASYMM8` is the quantized-asymmetric datatype, `S32` the wider 32-bit
signed integer type the bias is coerced to, the rest are unquantized
datatypes. -/
inductive DataType where
  | QASYMM8
  | S8
  | S32
  | F16
  | F32
  deriving DecidableEq, Repr

/-- `is_data_type_quantized_asymmetric`: true exactly on the
quantized-asymmetric datatype. -/
def is_data_type_quantized_asymmetric (dt : DataType) : Bool :=
  match dt with
  | DataType.QASYMM8 => true
  | _ => false

/-- Node operation kinds.
Modelled from the spec: the `NodeType` enumeration is declared outside
the excerpt and is a closed set strictly larger than the ten kinds this
backend lowers; `FlattenLayer`, `ReshapeLayer` and `SplitLayer` stand
for kinds that reach the dispatch switch's default case. -/
inductive NodeType where
  | ActivationLayer
  | BatchNormalizationLayer
  | ConvolutionLayer
  | DepthConcatenateLayer
  | DepthwiseConvolutionLayer
  | EltwiseLayer
  | FullyConnectedLayer
  | NormalizationLayer
  | PoolingLayer
  | SoftmaxLayer
  | FlattenLayer
  | ReshapeLayer
  | SplitLayer
  deriving DecidableEq, Repr

/-- Convolution algorithm hints.
Modelled from the spec: enumeration declared outside the excerpt; the
factory only distinguishes `DIRECT` from everything else. -/
inductive ConvolutionMethod where
  | DEFAULT
  | GEMM
  | DIRECT
  | WINOGRAD
  deriving DecidableEq, Repr

/-- Depthwise-convolution algorithm hints.
Modelled from the spec: enumeration declared outside the excerpt; the
factory only accepts `OPTIMIZED_3x3`. -/
inductive DepthwiseConvolutionMethod where
  | DEFAULT
  | GEMV
  | OPTIMIZED_3x3
  deriving DecidableEq, Repr

/-- Elementwise binary operation codes.
Modelled from the spec: enumeration declared outside the excerpt; `MAX`
and `DIV` stand for the operation codes that reach the lowerer's
"unsupported element-wise operation" branch. -/
inductive EltwiseOperation where
  | ADD
  | SUB
  | MUL
  | MAX
  | DIV
  deriving DecidableEq, Repr

/-- Overflow/saturation policy forwarded to arithmetic addition. -/
inductive ConvertPolicy where
  | WRAP
  | SATURATE
  deriving DecidableEq, Repr

/-- Identifier of a concrete backend-resident backing tensor. -/
abbrev BackingId := Nat

/-- Identifier of a shared memory manager held by the graph context. -/
abbrev MemMgrId := Nat

/-- The mutable state of the backing tensors: the datatype each backing
tensor's info currently reports (`info()->data_type()`, mutated by
`info()->set_data_type(...)`). -/
abbrev TensorEnv := BackingId → DataType

/-- A graph tensor (`arm_compute::graph::Tensor`): a backend tag in its
descriptor and an optional handle to backing storage. -/
structure GTensor where
  target : Target
  handle : Option BackingId
  deriving DecidableEq, Repr

/-- The graph context: a registry of shared memory managers looked up by
backend target (`get_memory_manager(ctx, target)`, nullable result). -/
structure GraphContext where
  memoryManagers : Target → Option MemMgrId

/-- `get_memory_manager(ctx, target)`: lookup of the shared memory
manager registered for a backend target. -/
def get_memory_manager (ctx : GraphContext) (t : Target) : Option MemMgrId :=
  ctx.memoryManagers t

/-- Fatal outcomes of a lowering pass: a failed `ARM_COMPUTE_ERROR_ON`
assertion, an explicit `ARM_COMPUTE_ERROR` rejection, or a raw
dereference of a null tensor pointer (undefined behaviour in the C++,
modelled as its own outcome). -/
inductive GCError where
  | assertFail (msg : String)
  | fatalError (msg : String)
  | nullDeref
  deriving DecidableEq, Repr

/-- `ARM_COMPUTE_ERROR_ON(cond)`: fatal when the condition holds. -/
def errorOn (cond : Bool) (msg : String) : Except GCError Unit :=
  if cond then Except.error (GCError.assertFail msg) else Except.ok ()

/-- A graph node as the lowerers see it: operation kind, ordered
input/output tensor references (each possibly null), and the per-kind
parameters read by the lowerers.  Parameters that are only forwarded
verbatim (activation info, convolution info, epsilon, beta, ...) are
carried as opaque tokens. -/
structure Node where
  nodeType : NodeType
  inputs : List (Option GTensor)
  outputs : List (Option GTensor)
  actInfo : Nat := 0
  epsilon : Nat := 0
  fusedAct : Nat := 0
  convInfo : Nat := 0
  convMethod : ConvolutionMethod := ConvolutionMethod.DEFAULT
  dwcMethod : DepthwiseConvolutionMethod := DepthwiseConvolutionMethod.DEFAULT
  eltwiseOp : EltwiseOperation := EltwiseOperation.ADD
  convertPolicy : ConvertPolicy := ConvertPolicy.WRAP
  enabled : Bool := true
  normInfo : Nat := 0
  poolInfo : Nat := 0
  beta : Nat := 0

/-- `node.input(i)` / `node.output(i)`: the i-th tensor reference. -/
def Node.input (n : Node) (i : Nat) : Option GTensor := n.inputs.getD i none

/-- The i-th output tensor reference of a node. -/
def Node.output (n : Node) (i : Nat) : Option GTensor := n.outputs.getD i none

/-- `node.num_inputs()`. -/
def Node.numInputs (n : Node) : Nat := n.inputs.length

/-- `node.num_outputs()`. -/
def Node.numOutputs (n : Node) : Nat := n.outputs.length

/-- The executable unit built by a lowerer: the kernel kind together
with the exact operands and parameters its `configure` call received,
and the shared memory manager handed to its constructor where the
source passes one. -/
inductive GCFunc where
  | activation (input output : Option BackingId) (actInfo : Nat)
  | batchNorm (input output mean var beta gamma : Option BackingId)
      (epsilon : Nat) (fusedAct : Nat)
  | directConv (input weights biases output : Option BackingId) (convInfo : Nat)
  | conv (mm : Option MemMgrId) (input weights biases output : Option BackingId)
      (convInfo : Nat)
  | depthConcat (inputs : List (Option BackingId)) (output : Option BackingId)
  | dwConv3x3 (input weights biases output : Option BackingId) (convInfo : Nat)
  | arithmeticAddition (input1 input2 output : Option BackingId)
      (policy : ConvertPolicy)
  | pixelWiseMul (input1 input2 output : Option BackingId) (scale : Int)
  | fullyConnected (mm : Option MemMgrId)
      (input weights biases output : Option BackingId)
  | normalization (input output : Option BackingId) (normInfo : Nat)
  | pooling (input output : Option BackingId) (poolInfo : Nat)
  | softmax (mm : Option MemMgrId) (input output : Option BackingId) (beta : Nat)
  deriving DecidableEq, Repr

/-- `get_backing_tensor`: null tensor reference resolves to a null
backing tensor; otherwise the tensor's declared backend must be GC
(fatal assertion otherwise) and the nullable handle yields the backing
tensor. -/
def get_backing_tensor (t : Option GTensor) : Except GCError (Option BackingId) :=
  match t with
  | none => Except.ok none
  | some tensor =>
    if tensor.target ≠ Target.GC then
      Except.error (GCError.assertFail "tensor desc target != GC")
    else
      Except.ok tensor.handle

/-- `backing->info()->data_type()`: reading through a null backing
tensor pointer is a raw null dereference. -/
def read_data_type (env : TensorEnv) (t : Option BackingId) : Except GCError DataType :=
  match t with
  | none => Except.error GCError.nullDeref
  | some id => Except.ok (env id)

/-- `backing->info()->set_data_type(dt)`: mutation of one backing
tensor's datatype; through a null pointer it is a raw null dereference. -/
def set_data_type (env : TensorEnv) (t : Option BackingId) (dt : DataType) :
    Except GCError TensorEnv :=
  match t with
  | none => Except.error GCError.nullDeref
  | some id => Except.ok (fun j => if j = id then dt else env j)

/-- Resolution of all inputs of a node in order, as the depth-concatenate
lowerer's loop does. -/
def resolve_inputs : List (Option GTensor) → Except GCError (List (Option BackingId))
  | [] => Except.ok []
  | t :: ts => do
    let b ← get_backing_tensor t
    let bs ← resolve_inputs ts
    Except.ok (b :: bs)

/-- A lowerer returns the (possibly updated) backing-tensor state and
the constructed unit; `none` is the legitimate "no unit" result. -/
abbrev LowerResult := Except GCError (TensorEnv × Option GCFunc)

/-- `create_activation_layer`: arity 1/1 asserted, operands resolved,
unit configured — no null-operand checks. -/
def create_activation_layer (node : Node) (env : TensorEnv) : LowerResult := do
  errorOn (node.numInputs != 1) "node.num_inputs() != 1"
  errorOn (node.numOutputs != 1) "node.num_outputs() != 1"
  let input ← get_backing_tensor (node.input 0)
  let output ← get_backing_tensor (node.output 0)
  Except.ok (env, some (GCFunc.activation input output node.actInfo))

/-- `create_batch_normalization_layer`: arity 5/1 asserted, operands
resolved, unit configured — no null-operand checks. -/
def create_batch_normalization_layer (node : Node) (env : TensorEnv) : LowerResult := do
  errorOn (node.numInputs != 5) "node.num_inputs() != 5"
  errorOn (node.numOutputs != 1) "node.num_outputs() != 1"
  let input ← get_backing_tensor (node.input 0)
  let mean ← get_backing_tensor (node.input 1)
  let var ← get_backing_tensor (node.input 2)
  let beta ← get_backing_tensor (node.input 3)
  let gamma ← get_backing_tensor (node.input 4)
  let output ← get_backing_tensor (node.output 0)
  Except.ok (env, some (GCFunc.batchNorm input output mean var beta gamma
    node.epsilon node.fusedAct))

/-- `create_convolution_layer`: arity 3/1 asserted, operands resolved;
quantized-asymmetric input datatype coerces the bias datatype to S32;
the DIRECT hint builds a direct-convolution unit with no memory
manager, any other hint builds a memory-managed general convolution
with the GC memory manager. -/
def create_convolution_layer (node : Node) (ctx : GraphContext) (env : TensorEnv) :
    LowerResult := do
  errorOn (node.numInputs != 3) "node.num_inputs() != 3"
  errorOn (node.numOutputs != 1) "node.num_outputs() != 1"
  let input ← get_backing_tensor (node.input 0)
  let weights ← get_backing_tensor (node.input 1)
  let biases ← get_backing_tensor (node.input 2)
  let output ← get_backing_tensor (node.output 0)
  let inputDT ← read_data_type env input
  let env2 ←
    if is_data_type_quantized_asymmetric inputDT then
      set_data_type env biases DataType.S32
    else
      Except.ok env
  let mm := get_memory_manager ctx Target.GC
  if node.convMethod = ConvolutionMethod.DIRECT then
    Except.ok (env2, some (GCFunc.directConv input weights biases output node.convInfo))
  else
    Except.ok (env2, some (GCFunc.conv mm input weights biases output node.convInfo))

/-- `create_depth_concatenate_layer`: output arity asserted first; a
disabled node yields null before any operand is resolved; otherwise all
inputs are resolved in order and the unit is configured with them. -/
def create_depth_concatenate_layer (node : Node) (env : TensorEnv) : LowerResult := do
  errorOn (node.numOutputs != 1) "node.num_outputs() != 1"
  if !node.enabled then
    Except.ok (env, none)
  else do
    let inputs ← resolve_inputs node.inputs
    let output ← get_backing_tensor (node.output 0)
    Except.ok (env, some (GCFunc.depthConcat inputs output))

/-- `create_depthwise_convolution_layer`: arity 3/1 asserted, operands
resolved, quantized bias coercion as for convolution; only the
OPTIMIZED_3x3 method builds a unit, every other method is an explicit
fatal rejection. -/
def create_depthwise_convolution_layer (node : Node) (env : TensorEnv) : LowerResult := do
  errorOn (node.numInputs != 3) "node.num_inputs() != 3"
  errorOn (node.numOutputs != 1) "node.num_outputs() != 1"
  let input ← get_backing_tensor (node.input 0)
  let weights ← get_backing_tensor (node.input 1)
  let biases ← get_backing_tensor (node.input 2)
  let output ← get_backing_tensor (node.output 0)
  let inputDT ← read_data_type env input
  let env2 ←
    if is_data_type_quantized_asymmetric inputDT then
      set_data_type env biases DataType.S32
    else
      Except.ok env
  if node.dwcMethod = DepthwiseConvolutionMethod.OPTIMIZED_3x3 then
    Except.ok (env2, some (GCFunc.dwConv3x3 input weights biases output node.convInfo))
  else
    Except.error (GCError.fatalError
      "Generic DepthwiseConvolutionLayer is not supported in GLES backend")

/-- `create_eltwise_layer`: arity 2/1 asserted, operands resolved and
null-checked; ADD builds an addition unit forwarding the convert
policy, SUB is an explicit fatal rejection, MUL builds a pixel-wise
multiplication with fixed scale 1, anything else is fatal. -/
def create_eltwise_layer (node : Node) (env : TensorEnv) : LowerResult := do
  errorOn (node.numInputs != 2) "node.num_inputs() != 2"
  errorOn (node.numOutputs != 1) "node.num_outputs() != 1"
  let input1 ← get_backing_tensor (node.input 0)
  let input2 ← get_backing_tensor (node.input 1)
  let output ← get_backing_tensor (node.output 0)
  errorOn (input1 = none) "input1 == nullptr"
  errorOn (input2 = none) "input2 == nullptr"
  errorOn (output = none) "output == nullptr"
  match node.eltwiseOp with
  | EltwiseOperation.ADD =>
    Except.ok (env, some (GCFunc.arithmeticAddition input1 input2 output node.convertPolicy))
  | EltwiseOperation.SUB =>
    Except.error (GCError.fatalError "Arithmetic subtraction is not supported in GLES backend")
  | EltwiseOperation.MUL =>
    Except.ok (env, some (GCFunc.pixelWiseMul input1 input2 output 1))
  | _ =>
    Except.error (GCError.fatalError "Unsupported element-wise operation!")

/-- `create_fully_connected_layer`: arity 3/1 asserted, operands
resolved, the memory-managed unit constructed and configured, and only
then input, weights and output null-checked; the bias is never
checked. -/
def create_fully_connected_layer (node : Node) (ctx : GraphContext) (env : TensorEnv) :
    LowerResult := do
  errorOn (node.numInputs != 3) "node.num_inputs() != 3"
  errorOn (node.numOutputs != 1) "node.num_outputs() != 1"
  let input ← get_backing_tensor (node.input 0)
  let weights ← get_backing_tensor (node.input 1)
  let biases ← get_backing_tensor (node.input 2)
  let output ← get_backing_tensor (node.output 0)
  let func := GCFunc.fullyConnected (get_memory_manager ctx Target.GC)
    input weights biases output
  errorOn (input = none) "input == nullptr"
  errorOn (weights = none) "weights == nullptr"
  errorOn (output = none) "output == nullptr"
  Except.ok (env, some func)

/-- `create_normalization_layer`: arity 1/1 asserted, operands resolved
and null-checked before configuration. -/
def create_normalization_layer (node : Node) (env : TensorEnv) : LowerResult := do
  errorOn (node.numInputs != 1) "node.num_inputs() != 1"
  errorOn (node.numOutputs != 1) "node.num_outputs() != 1"
  let input ← get_backing_tensor (node.input 0)
  let output ← get_backing_tensor (node.output 0)
  errorOn (input = none) "input == nullptr"
  errorOn (output = none) "output == nullptr"
  Except.ok (env, some (GCFunc.normalization input output node.normInfo))

/-- `create_pooling_layer`: arity 1/1 asserted, operands resolved and
null-checked before configuration. -/
def create_pooling_layer (node : Node) (env : TensorEnv) : LowerResult := do
  errorOn (node.numInputs != 1) "node.num_inputs() != 1"
  errorOn (node.numOutputs != 1) "node.num_outputs() != 1"
  let input ← get_backing_tensor (node.input 0)
  let output ← get_backing_tensor (node.output 0)
  errorOn (input = none) "input == nullptr"
  errorOn (output = none) "output == nullptr"
  Except.ok (env, some (GCFunc.pooling input output node.poolInfo))

/-- `create_softmax_layer`: arity 1/1 asserted, operands resolved and
null-checked; the unit's constructor receives the memory manager looked
up for target CL, not GC. -/
def create_softmax_layer (node : Node) (ctx : GraphContext) (env : TensorEnv) :
    LowerResult := do
  errorOn (node.numInputs != 1) "node.num_inputs() != 1"
  errorOn (node.numOutputs != 1) "node.num_outputs() != 1"
  let input ← get_backing_tensor (node.input 0)
  let output ← get_backing_tensor (node.output 0)
  errorOn (input = none) "input == nullptr"
  errorOn (output = none) "output == nullptr"
  Except.ok (env, some (GCFunc.softmax (get_memory_manager ctx Target.CL)
    input output node.beta))

/-- `GCFunctionFactory::create`: null node yields null; otherwise the
node's kind selects the matching lowerer, and any kind outside the ten
supported ones yields null via the default case. -/
def GCFunctionFactory.create (node : Option Node) (ctx : GraphContext) (env : TensorEnv) :
    LowerResult :=
  match node with
  | none => Except.ok (env, none)
  | some n =>
    match n.nodeType with
    | NodeType.ActivationLayer => create_activation_layer n env
    | NodeType.BatchNormalizationLayer => create_batch_normalization_layer n env
    | NodeType.ConvolutionLayer => create_convolution_layer n ctx env
    | NodeType.DepthConcatenateLayer => create_depth_concatenate_layer n env
    | NodeType.DepthwiseConvolutionLayer => create_depthwise_convolution_layer n env
    | NodeType.EltwiseLayer => create_eltwise_layer n env
    | NodeType.FullyConnectedLayer => create_fully_connected_layer n ctx env
    | NodeType.NormalizationLayer => create_normalization_layer n env
    | NodeType.PoolingLayer => create_pooling_layer n env
    | NodeType.SoftmaxLayer => create_softmax_layer n ctx env
    | _ => Except.ok (env, none)

/-- The ten operation kinds the dispatch switch forwards. -/
def supportedKinds : List NodeType :=
  [NodeType.ActivationLayer, NodeType.BatchNormalizationLayer,
   NodeType.ConvolutionLayer, NodeType.DepthConcatenateLayer,
   NodeType.DepthwiseConvolutionLayer, NodeType.EltwiseLayer,
   NodeType.FullyConnectedLayer, NodeType.NormalizationLayer,
   NodeType.PoolingLayer, NodeType.SoftmaxLayer]

/-- The fixed input arity each supported kind asserts, `none` for the
variadic depth-concatenation kind. -/
def fixedNumInputs : NodeType → Option Nat
  | NodeType.ActivationLayer => some 1
  | NodeType.BatchNormalizationLayer => some 5
  | NodeType.ConvolutionLayer => some 3
  | NodeType.DepthConcatenateLayer => none
  | NodeType.DepthwiseConvolutionLayer => some 3
  | NodeType.EltwiseLayer => some 2
  | NodeType.FullyConnectedLayer => some 3
  | NodeType.NormalizationLayer => some 1
  | NodeType.PoolingLayer => some 1
  | NodeType.SoftmaxLayer => some 1
  | _ => none

/-- Steps of the fully connected lowerer, in execution order: operand
resolution, unit construction, the configure call (with the operands it
receives), and each evaluated null-operand assertion. -/
inductive FCEvent where
  | resolveOperand (slot : String)
  | constructUnit
  | configure (input weights biases output : Option BackingId)
  | nullCheck (slot : String) (value : Option BackingId)
  deriving DecidableEq, Repr

/-- The execution trace of `create_fully_connected_layer` on a node
whose operand references resolve without a backend-mismatch assertion:
the events in source order, truncated after the first failing
null-operand assertion (a failing assertion aborts the pass).  Nodes
failing the arity assertions or the resolver's backend assertion yield
the empty trace (nothing beyond the failed guard executes). -/
def create_fully_connected_trace (node : Node) : List FCEvent :=
  if node.numInputs != 3 then []
  else if node.numOutputs != 1 then []
  else
    match get_backing_tensor (node.input 0), get_backing_tensor (node.input 1),
        get_backing_tensor (node.input 2), get_backing_tensor (node.output 0) with
    | Except.ok input, Except.ok weights, Except.ok biases, Except.ok output =>
      [FCEvent.resolveOperand "input", FCEvent.resolveOperand "weights",
       FCEvent.resolveOperand "biases", FCEvent.resolveOperand "output",
       FCEvent.constructUnit, FCEvent.configure input weights biases output,
       FCEvent.nullCheck "input" input]
      ++ if input = none then []
         else [FCEvent.nullCheck "weights" weights]
           ++ if weights = none then []
              else [FCEvent.nullCheck "output" output]
    | _, _, _, _ => []

/-- A fixed graph context usable in closed witness statements. -/
def ctxW : GraphContext := ⟨fun _ => some 7⟩

/-- A fixed backing-tensor state usable in closed witness statements:
every backing tensor reports F32. -/
def envW : TensorEnv := fun _ => DataType.F32

/-- A fixed backing-tensor state whose tensors report the
quantized-asymmetric datatype. -/
def envQ : TensorEnv := fun _ => DataType.QASYMM8

/-- A valid GC graph-tensor reference backed by tensor `i`. -/
def gcRef (i : BackingId) : Option GTensor := some ⟨Target.GC, some i⟩

@[simp]
theorem except_ok_bind {α β : Type} (a : α) (f : α → Except GCError β) :
    (Except.ok a : Except GCError α) >>= f = f a := rfl

@[simp]
theorem except_error_bind {α β : Type} (e : GCError) (f : α → Except GCError β) :
    (Except.error e : Except GCError α) >>= f = Except.error e := rfl

@[simp]
theorem errorOn_false (msg : String) : errorOn false msg = Except.ok () := rfl

@[simp]
theorem errorOn_true (msg : String) :
    errorOn true msg = Except.error (GCError.assertFail msg) := rfl

@[simp]
theorem get_backing_tensor_none : get_backing_tensor none = Except.ok none := rfl

@[simp]
theorem get_backing_tensor_gc (h : Option BackingId) :
    get_backing_tensor (some ⟨Target.GC, h⟩) = Except.ok h := rfl

/-- Claim C1: the dispatch entry point `GCFunctionFactory::create` maps a
null node to a null unit, maps any node whose kind lies outside the ten
supported kinds to a null unit without a fatal outcome, and forwards a
node of each supported kind to exactly the matching lowerer. -/
theorem dispatch_null_default_and_forwarding (ctx : GraphContext) (env : TensorEnv) :
    GCFunctionFactory.create none ctx env = Except.ok (env, none)
    ∧ (∀ n : Node, n.nodeType ∉ supportedKinds →
        GCFunctionFactory.create (some n) ctx env = Except.ok (env, none))
    ∧ (∀ n : Node,
        (n.nodeType = NodeType.ActivationLayer →
          GCFunctionFactory.create (some n) ctx env = create_activation_layer n env)
        ∧ (n.nodeType = NodeType.BatchNormalizationLayer →
          GCFunctionFactory.create (some n) ctx env = create_batch_normalization_layer n env)
        ∧ (n.nodeType = NodeType.ConvolutionLayer →
          GCFunctionFactory.create (some n) ctx env = create_convolution_layer n ctx env)
        ∧ (n.nodeType = NodeType.DepthConcatenateLayer →
          GCFunctionFactory.create (some n) ctx env = create_depth_concatenate_layer n env)
        ∧ (n.nodeType = NodeType.DepthwiseConvolutionLayer →
          GCFunctionFactory.create (some n) ctx env = create_depthwise_convolution_layer n env)
        ∧ (n.nodeType = NodeType.EltwiseLayer →
          GCFunctionFactory.create (some n) ctx env = create_eltwise_layer n env)
        ∧ (n.nodeType = NodeType.FullyConnectedLayer →
          GCFunctionFactory.create (some n) ctx env = create_fully_connected_layer n ctx env)
        ∧ (n.nodeType = NodeType.NormalizationLayer →
          GCFunctionFactory.create (some n) ctx env = create_normalization_layer n env)
        ∧ (n.nodeType = NodeType.PoolingLayer →
          GCFunctionFactory.create (some n) ctx env = create_pooling_layer n env)
        ∧ (n.nodeType = NodeType.SoftmaxLayer →
          GCFunctionFactory.create (some n) ctx env = create_softmax_layer n ctx env)) := by
  refine ⟨rfl, ?_, ?_⟩
  · intro n hn
    cases h : n.nodeType <;>
      simp [GCFunctionFactory.create, h] <;>
      · exfalso; apply hn; rw [h]; simp [supportedKinds]
  · intro n
    refine ⟨?_, ?_, ?_, ?_, ?_, ?_, ?_, ?_, ?_, ?_⟩ <;>
      · intro h; simp [GCFunctionFactory.create, h]

/-- Witness for C1: a concrete node of an unsupported kind (flatten)
dispatches to a null unit without a fatal outcome. -/
theorem dispatch_null_default_and_forwarding_witness :
    GCFunctionFactory.create
      (some { nodeType := NodeType.FlattenLayer, inputs := [gcRef 0], outputs := [gcRef 1] })
      ctxW envW = Except.ok (envW, none) :=
  (dispatch_null_default_and_forwarding ctxW envW).2.1
    { nodeType := NodeType.FlattenLayer, inputs := [gcRef 0], outputs := [gcRef 1] }
    (by decide)

/-- A lowering that opens with one fatal assertion guard fails with some
assertion message when the guard's condition holds. -/
theorem guard1_fatal {α : Type} (a : Bool) (mA : String)
    (rest : Unit → Except GCError α) (h : a = true) :
    ∃ msg, (errorOn a mA >>= rest) = Except.error (GCError.assertFail msg) := by
  subst h
  exact ⟨mA, rfl⟩

/-- A lowering that opens with two fatal assertion guards fails with
some assertion message when either guard's condition holds. -/
theorem guard2_fatal {α : Type} (a b : Bool) (mA mB : String)
    (rest : Unit → Except GCError α) (h : a = true ∨ b = true) :
    ∃ msg, (errorOn a mA >>= fun _u => errorOn b mB >>= rest) =
      Except.error (GCError.assertFail msg) := by
  cases a
  · rcases h with h | h
    · exact absurd h (by simp)
    · subst h
      exact ⟨mB, rfl⟩
  · exact ⟨mA, rfl⟩

/-- Claim C2: for every supported operation kind, a node whose input
count differs from the kind's fixed input arity (where one exists;
depth concatenation is variadic) or whose output count differs from 1
is lowered to a fatal assertion failure. -/
theorem arity_mismatch_fatal (ctx : GraphContext) (env : TensorEnv) (n : Node)
    (hsup : n.nodeType ∈ supportedKinds)
    (hmis : (∃ k, fixedNumInputs n.nodeType = some k ∧ n.numInputs ≠ k)
            ∨ n.numOutputs ≠ 1) :
    ∃ msg, GCFunctionFactory.create (some n) ctx env =
      Except.error (GCError.assertFail msg) := by
  simp only [supportedKinds, List.mem_cons, List.not_mem_nil, or_false] at hsup
  rcases hsup with h | h | h | h | h | h | h | h | h | h
  · simp only [GCFunctionFactory.create, h, create_activation_layer]
    rcases hmis with ⟨k, hk, hne⟩ | hout
    · rw [h] at hk
      simp only [fixedNumInputs, Option.some.injEq] at hk
      subst hk
      exact guard2_fatal _ _ _ _ _ (Or.inl (by simpa [bne_iff_ne] using hne))
    · exact guard2_fatal _ _ _ _ _ (Or.inr (by simpa [bne_iff_ne] using hout))
  · simp only [GCFunctionFactory.create, h, create_batch_normalization_layer]
    rcases hmis with ⟨k, hk, hne⟩ | hout
    · rw [h] at hk
      simp only [fixedNumInputs, Option.some.injEq] at hk
      subst hk
      exact guard2_fatal _ _ _ _ _ (Or.inl (by simpa [bne_iff_ne] using hne))
    · exact guard2_fatal _ _ _ _ _ (Or.inr (by simpa [bne_iff_ne] using hout))
  · simp only [GCFunctionFactory.create, h, create_convolution_layer]
    rcases hmis with ⟨k, hk, hne⟩ | hout
    · rw [h] at hk
      simp only [fixedNumInputs, Option.some.injEq] at hk
      subst hk
      exact guard2_fatal _ _ _ _ _ (Or.inl (by simpa [bne_iff_ne] using hne))
    · exact guard2_fatal _ _ _ _ _ (Or.inr (by simpa [bne_iff_ne] using hout))
  · simp only [GCFunctionFactory.create, h, create_depth_concatenate_layer]
    rcases hmis with ⟨k, hk, hne⟩ | hout
    · rw [h] at hk
      simp [fixedNumInputs] at hk
    · exact guard1_fatal _ _ _ (by simpa [bne_iff_ne] using hout)
  · simp only [GCFunctionFactory.create, h, create_depthwise_convolution_layer]
    rcases hmis with ⟨k, hk, hne⟩ | hout
    · rw [h] at hk
      simp only [fixedNumInputs, Option.some.injEq] at hk
      subst hk
      exact guard2_fatal _ _ _ _ _ (Or.inl (by simpa [bne_iff_ne] using hne))
    · exact guard2_fatal _ _ _ _ _ (Or.inr (by simpa [bne_iff_ne] using hout))
  · simp only [GCFunctionFactory.create, h, create_eltwise_layer]
    rcases hmis with ⟨k, hk, hne⟩ | hout
    · rw [h] at hk
      simp only [fixedNumInputs, Option.some.injEq] at hk
      subst hk
      exact guard2_fatal _ _ _ _ _ (Or.inl (by simpa [bne_iff_ne] using hne))
    · exact guard2_fatal _ _ _ _ _ (Or.inr (by simpa [bne_iff_ne] using hout))
  · simp only [GCFunctionFactory.create, h, create_fully_connected_layer]
    rcases hmis with ⟨k, hk, hne⟩ | hout
    · rw [h] at hk
      simp only [fixedNumInputs, Option.some.injEq] at hk
      subst hk
      exact guard2_fatal _ _ _ _ _ (Or.inl (by simpa [bne_iff_ne] using hne))
    · exact guard2_fatal _ _ _ _ _ (Or.inr (by simpa [bne_iff_ne] using hout))
  · simp only [GCFunctionFactory.create, h, create_normalization_layer]
    rcases hmis with ⟨k, hk, hne⟩ | hout
    · rw [h] at hk
      simp only [fixedNumInputs, Option.some.injEq] at hk
      subst hk
      exact guard2_fatal _ _ _ _ _ (Or.inl (by simpa [bne_iff_ne] using hne))
    · exact guard2_fatal _ _ _ _ _ (Or.inr (by simpa [bne_iff_ne] using hout))
  · simp only [GCFunctionFactory.create, h, create_pooling_layer]
    rcases hmis with ⟨k, hk, hne⟩ | hout
    · rw [h] at hk
      simp only [fixedNumInputs, Option.some.injEq] at hk
      subst hk
      exact guard2_fatal _ _ _ _ _ (Or.inl (by simpa [bne_iff_ne] using hne))
    · exact guard2_fatal _ _ _ _ _ (Or.inr (by simpa [bne_iff_ne] using hout))
  · simp only [GCFunctionFactory.create, h, create_softmax_layer]
    rcases hmis with ⟨k, hk, hne⟩ | hout
    · rw [h] at hk
      simp only [fixedNumInputs, Option.some.injEq] at hk
      subst hk
      exact guard2_fatal _ _ _ _ _ (Or.inl (by simpa [bne_iff_ne] using hne))
    · exact guard2_fatal _ _ _ _ _ (Or.inr (by simpa [bne_iff_ne] using hout))

/-- Witness for C2: a concrete activation node with two inputs fails
the arity assertion. -/
theorem arity_mismatch_fatal_witness :
    ∃ msg, GCFunctionFactory.create
      (some { nodeType := NodeType.ActivationLayer, inputs := [gcRef 0, gcRef 1],
              outputs := [gcRef 2] }) ctxW envW =
      Except.error (GCError.assertFail msg) :=
  arity_mismatch_fatal ctxW envW
    { nodeType := NodeType.ActivationLayer, inputs := [gcRef 0, gcRef 1],
      outputs := [gcRef 2] }
    (by decide) (Or.inl ⟨1, rfl, by decide⟩)

/-- Claim C3 (counterexample): lowering a convolution node whose bias
operand resolves to a null backing tensor is not fatal — the direct
convolution unit is constructed and configured with the null bias, so
execution does reach kernel configuration with a null required
operand. -/
theorem conv_null_bias_reaches_configure :
    GCFunctionFactory.create
      (some { nodeType := NodeType.ConvolutionLayer,
              inputs := [gcRef 0, gcRef 1, some ⟨Target.GC, none⟩],
              outputs := [gcRef 2],
              convMethod := ConvolutionMethod.DIRECT }) ctxW envW =
      Except.ok (envW, some (GCFunc.directConv (some 0) (some 1) none (some 2) 0)) := rfl

/-- Claim C3 (amended): null-operand fatal assertions exist only in the
eltwise, normalization, pooling and softmax lowerers; the activation,
batch-normalization, convolution and depthwise-convolution lowerers
perform no null-operand assertion and reach kernel configuration with
the null operand (a null primary input on convolution additionally hits
a raw null dereference when its datatype is read, which is not an
assertion); the fully connected lowerer reaches configuration and then
asserts input, weights and output — its bias is never checked. -/
theorem null_operand_handling_as_implemented (ctx : GraphContext) (env : TensorEnv) :
    (∀ (hi ho : Option BackingId) (n : Node), n.nodeType = NodeType.ActivationLayer →
      n.inputs = [some ⟨Target.GC, hi⟩] → n.outputs = [some ⟨Target.GC, ho⟩] →
      GCFunctionFactory.create (some n) ctx env =
        Except.ok (env, some (GCFunc.activation hi ho n.actInfo)))
    ∧ (∀ (hi hm hv hb hg ho : Option BackingId) (n : Node),
      n.nodeType = NodeType.BatchNormalizationLayer →
      n.inputs = [some ⟨Target.GC, hi⟩, some ⟨Target.GC, hm⟩, some ⟨Target.GC, hv⟩,
        some ⟨Target.GC, hb⟩, some ⟨Target.GC, hg⟩] →
      n.outputs = [some ⟨Target.GC, ho⟩] →
      GCFunctionFactory.create (some n) ctx env =
        Except.ok (env, some (GCFunc.batchNorm hi ho hm hv hb hg n.epsilon n.fusedAct)))
    ∧ (∀ (i : BackingId) (hw hb ho : Option BackingId) (n : Node),
      n.nodeType = NodeType.ConvolutionLayer →
      is_data_type_quantized_asymmetric (env i) = false →
      n.convMethod = ConvolutionMethod.DIRECT →
      n.inputs = [some ⟨Target.GC, some i⟩, some ⟨Target.GC, hw⟩, some ⟨Target.GC, hb⟩] →
      n.outputs = [some ⟨Target.GC, ho⟩] →
      GCFunctionFactory.create (some n) ctx env =
        Except.ok (env, some (GCFunc.directConv (some i) hw hb ho n.convInfo)))
    ∧ (∀ (hw hb ho : Option BackingId) (n : Node),
      n.nodeType = NodeType.ConvolutionLayer →
      n.inputs = [some ⟨Target.GC, none⟩, some ⟨Target.GC, hw⟩, some ⟨Target.GC, hb⟩] →
      n.outputs = [some ⟨Target.GC, ho⟩] →
      GCFunctionFactory.create (some n) ctx env = Except.error GCError.nullDeref)
    ∧ (∀ (i : BackingId) (hw hb ho : Option BackingId) (n : Node),
      n.nodeType = NodeType.DepthwiseConvolutionLayer →
      is_data_type_quantized_asymmetric (env i) = false →
      n.dwcMethod = DepthwiseConvolutionMethod.OPTIMIZED_3x3 →
      n.inputs = [some ⟨Target.GC, some i⟩, some ⟨Target.GC, hw⟩, some ⟨Target.GC, hb⟩] →
      n.outputs = [some ⟨Target.GC, ho⟩] →
      GCFunctionFactory.create (some n) ctx env =
        Except.ok (env, some (GCFunc.dwConv3x3 (some i) hw hb ho n.convInfo)))
    ∧ (∀ (h1 h2 ho : Option BackingId) (n : Node),
      n.nodeType = NodeType.EltwiseLayer →
      n.inputs = [some ⟨Target.GC, h1⟩, some ⟨Target.GC, h2⟩] →
      n.outputs = [some ⟨Target.GC, ho⟩] →
      (h1 = none ∨ h2 = none ∨ ho = none) →
      ∃ m, GCFunctionFactory.create (some n) ctx env =
        Except.error (GCError.assertFail m))
    ∧ (∀ (hi ho : Option BackingId) (n : Node),
      n.nodeType = NodeType.NormalizationLayer →
      n.inputs = [some ⟨Target.GC, hi⟩] → n.outputs = [some ⟨Target.GC, ho⟩] →
      (hi = none ∨ ho = none) →
      ∃ m, GCFunctionFactory.create (some n) ctx env =
        Except.error (GCError.assertFail m))
    ∧ (∀ (hi ho : Option BackingId) (n : Node),
      n.nodeType = NodeType.PoolingLayer →
      n.inputs = [some ⟨Target.GC, hi⟩] → n.outputs = [some ⟨Target.GC, ho⟩] →
      (hi = none ∨ ho = none) →
      ∃ m, GCFunctionFactory.create (some n) ctx env =
        Except.error (GCError.assertFail m))
    ∧ (∀ (hi ho : Option BackingId) (n : Node),
      n.nodeType = NodeType.SoftmaxLayer →
      n.inputs = [some ⟨Target.GC, hi⟩] → n.outputs = [some ⟨Target.GC, ho⟩] →
      (hi = none ∨ ho = none) →
      ∃ m, GCFunctionFactory.create (some n) ctx env =
        Except.error (GCError.assertFail m))
    ∧ (∀ (hi hw hb ho : Option BackingId) (n : Node),
      n.nodeType = NodeType.FullyConnectedLayer →
      n.inputs = [some ⟨Target.GC, hi⟩, some ⟨Target.GC, hw⟩, some ⟨Target.GC, hb⟩] →
      n.outputs = [some ⟨Target.GC, ho⟩] →
      (hi = none ∨ hw = none ∨ ho = none) →
      ∃ m, GCFunctionFactory.create (some n) ctx env =
        Except.error (GCError.assertFail m))
    ∧ (∀ (i w o : BackingId) (n : Node),
      n.nodeType = NodeType.FullyConnectedLayer →
      n.inputs = [some ⟨Target.GC, some i⟩, some ⟨Target.GC, some w⟩,
        some ⟨Target.GC, none⟩] →
      n.outputs = [some ⟨Target.GC, some o⟩] →
      GCFunctionFactory.create (some n) ctx env =
        Except.ok (env, some (GCFunc.fullyConnected (get_memory_manager ctx Target.GC)
          (some i) (some w) none (some o)))) := by
  refine ⟨?_, ?_, ?_, ?_, ?_, ?_, ?_, ?_, ?_, ?_, ?_⟩
  · intro hi ho n ht hin hout
    simp [GCFunctionFactory.create, ht, create_activation_layer, hin, hout,
      Node.numInputs, Node.numOutputs, Node.input, Node.output]
  · intro hi hm hv hb hg ho n ht hin hout
    simp [GCFunctionFactory.create, ht, create_batch_normalization_layer, hin, hout,
      Node.numInputs, Node.numOutputs, Node.input, Node.output]
  · intro i hw hb ho n ht hq hmeth hin hout
    simp [GCFunctionFactory.create, ht, create_convolution_layer, hin, hout,
      Node.numInputs, Node.numOutputs, Node.input, Node.output, read_data_type,
      hq, hmeth]
  · intro hw hb ho n ht hin hout
    simp [GCFunctionFactory.create, ht, create_convolution_layer, hin, hout,
      Node.numInputs, Node.numOutputs, Node.input, Node.output, read_data_type]
  · intro i hw hb ho n ht hq hmeth hin hout
    simp [GCFunctionFactory.create, ht, create_depthwise_convolution_layer, hin, hout,
      Node.numInputs, Node.numOutputs, Node.input, Node.output, read_data_type,
      hq, hmeth]
  · intro h1 h2 ho n ht hin hout hnull
    rcases hnull with rfl | rfl | rfl
    · simp [GCFunctionFactory.create, ht, create_eltwise_layer, hin, hout,
        Node.numInputs, Node.numOutputs, Node.input, Node.output, errorOn]
    · cases h1 <;>
        simp [GCFunctionFactory.create, ht, create_eltwise_layer, hin, hout,
          Node.numInputs, Node.numOutputs, Node.input, Node.output, errorOn]
    · cases h1 <;> cases h2 <;>
        simp [GCFunctionFactory.create, ht, create_eltwise_layer, hin, hout,
          Node.numInputs, Node.numOutputs, Node.input, Node.output, errorOn]
  · intro hi ho n ht hin hout hnull
    rcases hnull with rfl | rfl
    · simp [GCFunctionFactory.create, ht, create_normalization_layer, hin, hout,
        Node.numInputs, Node.numOutputs, Node.input, Node.output, errorOn]
    · cases hi <;>
        simp [GCFunctionFactory.create, ht, create_normalization_layer, hin, hout,
          Node.numInputs, Node.numOutputs, Node.input, Node.output, errorOn]
  · intro hi ho n ht hin hout hnull
    rcases hnull with rfl | rfl
    · simp [GCFunctionFactory.create, ht, create_pooling_layer, hin, hout,
        Node.numInputs, Node.numOutputs, Node.input, Node.output, errorOn]
    · cases hi <;>
        simp [GCFunctionFactory.create, ht, create_pooling_layer, hin, hout,
          Node.numInputs, Node.numOutputs, Node.input, Node.output, errorOn]
  · intro hi ho n ht hin hout hnull
    rcases hnull with rfl | rfl
    · simp [GCFunctionFactory.create, ht, create_softmax_layer, hin, hout,
        Node.numInputs, Node.numOutputs, Node.input, Node.output, errorOn]
    · cases hi <;>
        simp [GCFunctionFactory.create, ht, create_softmax_layer, hin, hout,
          Node.numInputs, Node.numOutputs, Node.input, Node.output, errorOn]
  · intro hi hw hb ho n ht hin hout hnull
    rcases hnull with rfl | rfl | rfl
    · simp [GCFunctionFactory.create, ht, create_fully_connected_layer, hin, hout,
        Node.numInputs, Node.numOutputs, Node.input, Node.output, errorOn]
    · cases hi <;>
        simp [GCFunctionFactory.create, ht, create_fully_connected_layer, hin, hout,
          Node.numInputs, Node.numOutputs, Node.input, Node.output, errorOn]
    · cases hi <;> cases hw <;>
        simp [GCFunctionFactory.create, ht, create_fully_connected_layer, hin, hout,
          Node.numInputs, Node.numOutputs, Node.input, Node.output, errorOn]
  · intro i w o n ht hin hout
    simp [GCFunctionFactory.create, ht, create_fully_connected_layer, hin, hout,
      Node.numInputs, Node.numOutputs, Node.input, Node.output, errorOn]

/-- Witness for the amended C3: a concrete activation node whose input
resolves to a null backing tensor is lowered without any fatal check,
the unit being configured with the null input. -/
theorem null_operand_handling_as_implemented_witness :
    GCFunctionFactory.create
      (some { nodeType := NodeType.ActivationLayer,
              inputs := [some ⟨Target.GC, none⟩], outputs := [gcRef 1] }) ctxW envW =
      Except.ok (envW, some (GCFunc.activation none (some 1) 0)) :=
  (null_operand_handling_as_implemented ctxW envW).1 none (some 1)
    { nodeType := NodeType.ActivationLayer,
      inputs := [some ⟨Target.GC, none⟩], outputs := [gcRef 1] } rfl rfl rfl

/-- Claim C4: on convolution and depthwise-convolution nodes with
resolvable input and bias, lowering with a quantized-asymmetric input
datatype leaves a final backing-tensor state in which the bias reports
S32 and every other backing tensor is untouched (the coercion happens
exactly once and is never reversed); with a non-quantized input
datatype the backing-tensor state is left completely unchanged. -/
theorem quantized_input_bias_coercion (ctx : GraphContext) (env : TensorEnv) :
    (∀ (i b : BackingId) (hw ho : Option BackingId) (n : Node),
      n.nodeType = NodeType.ConvolutionLayer →
      n.inputs = [some ⟨Target.GC, some i⟩, some ⟨Target.GC, hw⟩,
        some ⟨Target.GC, some b⟩] →
      n.outputs = [some ⟨Target.GC, ho⟩] →
      ∃ env2 u, GCFunctionFactory.create (some n) ctx env = Except.ok (env2, some u)
        ∧ (is_data_type_quantized_asymmetric (env i) = true →
            env2 b = DataType.S32 ∧ ∀ j, j ≠ b → env2 j = env j)
        ∧ (is_data_type_quantized_asymmetric (env i) = false → env2 = env))
    ∧ (∀ (i b : BackingId) (hw ho : Option BackingId) (n : Node),
      n.nodeType = NodeType.DepthwiseConvolutionLayer →
      n.dwcMethod = DepthwiseConvolutionMethod.OPTIMIZED_3x3 →
      n.inputs = [some ⟨Target.GC, some i⟩, some ⟨Target.GC, hw⟩,
        some ⟨Target.GC, some b⟩] →
      n.outputs = [some ⟨Target.GC, ho⟩] →
      ∃ env2 u, GCFunctionFactory.create (some n) ctx env = Except.ok (env2, some u)
        ∧ (is_data_type_quantized_asymmetric (env i) = true →
            env2 b = DataType.S32 ∧ ∀ j, j ≠ b → env2 j = env j)
        ∧ (is_data_type_quantized_asymmetric (env i) = false → env2 = env)) := by
  constructor
  · intro i b hw ho n ht hin hout
    by_cases hq : is_data_type_quantized_asymmetric (env i) = true
    · by_cases hm : n.convMethod = ConvolutionMethod.DIRECT
      · refine ⟨fun j => if j = b then DataType.S32 else env j,
          GCFunc.directConv (some i) hw (some b) ho n.convInfo, ?_, ?_, ?_⟩
        · simp [GCFunctionFactory.create, ht, create_convolution_layer, hin, hout,
            Node.numInputs, Node.numOutputs, Node.input, Node.output, read_data_type,
            set_data_type, hq, hm]
        · intro _
          exact ⟨by simp, fun j hj => by simp [hj]⟩
        · intro hq2
          rw [hq] at hq2
          cases hq2
      · refine ⟨fun j => if j = b then DataType.S32 else env j,
          GCFunc.conv (get_memory_manager ctx Target.GC) (some i) hw (some b) ho
            n.convInfo, ?_, ?_, ?_⟩
        · simp [GCFunctionFactory.create, ht, create_convolution_layer, hin, hout,
            Node.numInputs, Node.numOutputs, Node.input, Node.output, read_data_type,
            set_data_type, hq, hm]
        · intro _
          exact ⟨by simp, fun j hj => by simp [hj]⟩
        · intro hq2
          rw [hq] at hq2
          cases hq2
    · rw [Bool.not_eq_true] at hq
      by_cases hm : n.convMethod = ConvolutionMethod.DIRECT
      · refine ⟨env, GCFunc.directConv (some i) hw (some b) ho n.convInfo, ?_, ?_, ?_⟩
        · simp [GCFunctionFactory.create, ht, create_convolution_layer, hin, hout,
            Node.numInputs, Node.numOutputs, Node.input, Node.output, read_data_type,
            set_data_type, hq, hm]
        · intro hq2
          rw [hq] at hq2
          cases hq2
        · intro _
          rfl
      · refine ⟨env, GCFunc.conv (get_memory_manager ctx Target.GC) (some i) hw
          (some b) ho n.convInfo, ?_, ?_, ?_⟩
        · simp [GCFunctionFactory.create, ht, create_convolution_layer, hin, hout,
            Node.numInputs, Node.numOutputs, Node.input, Node.output, read_data_type,
            set_data_type, hq, hm]
        · intro hq2
          rw [hq] at hq2
          cases hq2
        · intro _
          rfl
  · intro i b hw ho n ht hmeth hin hout
    by_cases hq : is_data_type_quantized_asymmetric (env i) = true
    · refine ⟨fun j => if j = b then DataType.S32 else env j,
        GCFunc.dwConv3x3 (some i) hw (some b) ho n.convInfo, ?_, ?_, ?_⟩
      · simp [GCFunctionFactory.create, ht, create_depthwise_convolution_layer, hin,
          hout, Node.numInputs, Node.numOutputs, Node.input, Node.output,
          read_data_type, set_data_type, hq, hmeth]
      · intro _
        exact ⟨by simp, fun j hj => by simp [hj]⟩
      · intro hq2
        rw [hq] at hq2
        cases hq2
    · rw [Bool.not_eq_true] at hq
      refine ⟨env, GCFunc.dwConv3x3 (some i) hw (some b) ho n.convInfo, ?_, ?_, ?_⟩
      · simp [GCFunctionFactory.create, ht, create_depthwise_convolution_layer, hin,
          hout, Node.numInputs, Node.numOutputs, Node.input, Node.output,
          read_data_type, set_data_type, hq, hmeth]
      · intro hq2
        rw [hq] at hq2
        cases hq2
      · intro _
        rfl

/-- Witness for C4: a concrete quantized-input convolution node whose
bias is backing tensor 2 yields a state reporting S32 for the bias. -/
theorem quantized_input_bias_coercion_witness :
    ∃ env2 u, GCFunctionFactory.create
      (some { nodeType := NodeType.ConvolutionLayer,
              inputs := [gcRef 0, gcRef 1, gcRef 2], outputs := [gcRef 3] })
      ctxW envQ = Except.ok (env2, some u)
      ∧ (is_data_type_quantized_asymmetric (envQ 0) = true →
          env2 2 = DataType.S32 ∧ ∀ j, j ≠ 2 → env2 j = envQ j)
      ∧ (is_data_type_quantized_asymmetric (envQ 0) = false → env2 = envQ) :=
  (quantized_input_bias_coercion ctxW envQ).1 0 2 (some 1) (some 3)
    { nodeType := NodeType.ConvolutionLayer,
      inputs := [gcRef 0, gcRef 1, gcRef 2], outputs := [gcRef 3] } rfl rfl rfl

/-- Claim C5: on an elementwise node with correct arity and non-null
resolved operands, ADD yields the addition unit with the node's convert
policy forwarded, MUL yields the multiplication unit with fixed scale
1, SUB is an explicit fatal rejection, and every other operation code
is an explicit fatal rejection. -/
theorem eltwise_operation_dispatch (ctx : GraphContext) (env : TensorEnv)
    (i1 i2 o : BackingId) (n : Node)
    (ht : n.nodeType = NodeType.EltwiseLayer)
    (hin : n.inputs = [some ⟨Target.GC, some i1⟩, some ⟨Target.GC, some i2⟩])
    (hout : n.outputs = [some ⟨Target.GC, some o⟩]) :
    (n.eltwiseOp = EltwiseOperation.ADD →
      GCFunctionFactory.create (some n) ctx env =
        Except.ok (env, some (GCFunc.arithmeticAddition (some i1) (some i2) (some o)
          n.convertPolicy)))
    ∧ (n.eltwiseOp = EltwiseOperation.MUL →
      GCFunctionFactory.create (some n) ctx env =
        Except.ok (env, some (GCFunc.pixelWiseMul (some i1) (some i2) (some o) 1)))
    ∧ (n.eltwiseOp = EltwiseOperation.SUB →
      GCFunctionFactory.create (some n) ctx env =
        Except.error (GCError.fatalError
          "Arithmetic subtraction is not supported in GLES backend"))
    ∧ (n.eltwiseOp ≠ EltwiseOperation.ADD → n.eltwiseOp ≠ EltwiseOperation.SUB →
      n.eltwiseOp ≠ EltwiseOperation.MUL →
      GCFunctionFactory.create (some n) ctx env =
        Except.error (GCError.fatalError "Unsupported element-wise operation!")) := by
  refine ⟨?_, ?_, ?_, ?_⟩
  · intro hop
    simp [GCFunctionFactory.create, ht, create_eltwise_layer, hin, hout,
      Node.numInputs, Node.numOutputs, Node.input, Node.output, errorOn, hop]
  · intro hop
    simp [GCFunctionFactory.create, ht, create_eltwise_layer, hin, hout,
      Node.numInputs, Node.numOutputs, Node.input, Node.output, errorOn, hop]
  · intro hop
    simp [GCFunctionFactory.create, ht, create_eltwise_layer, hin, hout,
      Node.numInputs, Node.numOutputs, Node.input, Node.output, errorOn, hop]
  · intro hA hS hM
    cases hop : n.eltwiseOp
    · exact absurd hop hA
    · exact absurd hop hS
    · exact absurd hop hM
    · simp [GCFunctionFactory.create, ht, create_eltwise_layer, hin, hout,
        Node.numInputs, Node.numOutputs, Node.input, Node.output, errorOn, hop]
    · simp [GCFunctionFactory.create, ht, create_eltwise_layer, hin, hout,
        Node.numInputs, Node.numOutputs, Node.input, Node.output, errorOn, hop]

/-- Witness for C5: a concrete MUL node lowers to the multiplication
unit with fixed scale 1. -/
theorem eltwise_operation_dispatch_witness :
    GCFunctionFactory.create
      (some { nodeType := NodeType.EltwiseLayer, inputs := [gcRef 0, gcRef 1],
              outputs := [gcRef 2], eltwiseOp := EltwiseOperation.MUL }) ctxW envW =
      Except.ok (envW, some (GCFunc.pixelWiseMul (some 0) (some 1) (some 2) 1)) :=
  (eltwise_operation_dispatch ctxW envW 0 1 2
    { nodeType := NodeType.EltwiseLayer, inputs := [gcRef 0, gcRef 1],
      outputs := [gcRef 2], eltwiseOp := EltwiseOperation.MUL }
    rfl rfl rfl).2.1 rfl

/-- Claim C6: on a depthwise-convolution node with correct arity and
resolvable operands, lowering returns a non-null unit exactly when the
requested method is OPTIMIZED_3x3 (and then the unit is the 3x3
depthwise kernel over the node's own operands, never a substitute);
every other method is an explicit unsupported-configuration fatal
rejection. -/
theorem depthwise_method_gate (ctx : GraphContext) (env : TensorEnv)
    (i w b o : BackingId) (n : Node)
    (ht : n.nodeType = NodeType.DepthwiseConvolutionLayer)
    (hin : n.inputs = [some ⟨Target.GC, some i⟩, some ⟨Target.GC, some w⟩,
      some ⟨Target.GC, some b⟩])
    (hout : n.outputs = [some ⟨Target.GC, some o⟩]) :
    (n.dwcMethod = DepthwiseConvolutionMethod.OPTIMIZED_3x3 →
      ∃ env2, GCFunctionFactory.create (some n) ctx env =
        Except.ok (env2, some (GCFunc.dwConv3x3 (some i) (some w) (some b) (some o)
          n.convInfo)))
    ∧ (n.dwcMethod ≠ DepthwiseConvolutionMethod.OPTIMIZED_3x3 →
      GCFunctionFactory.create (some n) ctx env =
        Except.error (GCError.fatalError
          "Generic DepthwiseConvolutionLayer is not supported in GLES backend")) := by
  constructor
  · intro hmeth
    by_cases hq : is_data_type_quantized_asymmetric (env i) = true
    · exact ⟨fun j => if j = b then DataType.S32 else env j, by
        simp [GCFunctionFactory.create, ht, create_depthwise_convolution_layer, hin,
          hout, Node.numInputs, Node.numOutputs, Node.input, Node.output,
          read_data_type, set_data_type, hq, hmeth]⟩
    · rw [Bool.not_eq_true] at hq
      exact ⟨env, by
        simp [GCFunctionFactory.create, ht, create_depthwise_convolution_layer, hin,
          hout, Node.numInputs, Node.numOutputs, Node.input, Node.output,
          read_data_type, set_data_type, hq, hmeth]⟩
  · intro hmeth
    by_cases hq : is_data_type_quantized_asymmetric (env i) = true
    · simp [GCFunctionFactory.create, ht, create_depthwise_convolution_layer, hin,
        hout, Node.numInputs, Node.numOutputs, Node.input, Node.output,
        read_data_type, set_data_type, hq, hmeth]
    · rw [Bool.not_eq_true] at hq
      simp [GCFunctionFactory.create, ht, create_depthwise_convolution_layer, hin,
        hout, Node.numInputs, Node.numOutputs, Node.input, Node.output,
        read_data_type, set_data_type, hq, hmeth]

/-- Witness for C6: a concrete node requesting the GEMV method is
rejected with the explicit unsupported-configuration message. -/
theorem depthwise_method_gate_witness :
    GCFunctionFactory.create
      (some { nodeType := NodeType.DepthwiseConvolutionLayer,
              inputs := [gcRef 0, gcRef 1, gcRef 2], outputs := [gcRef 3],
              dwcMethod := DepthwiseConvolutionMethod.GEMV }) ctxW envW =
      Except.error (GCError.fatalError
        "Generic DepthwiseConvolutionLayer is not supported in GLES backend") :=
  (depthwise_method_gate ctxW envW 0 1 2 3
    { nodeType := NodeType.DepthwiseConvolutionLayer,
      inputs := [gcRef 0, gcRef 1, gcRef 2], outputs := [gcRef 3],
      dwcMethod := DepthwiseConvolutionMethod.GEMV }
    rfl rfl rfl).2 (by decide)

/-- Resolving a list of valid GC tensor references yields exactly the
backing ids, in order. -/
theorem resolve_inputs_valid (ids : List BackingId) :
    resolve_inputs (ids.map fun i => some ⟨Target.GC, some i⟩) =
      Except.ok (ids.map some) := by
  induction ids with
  | nil => rfl
  | cons a t ih => simp [resolve_inputs, ih]

/-- Claim C7: a disabled depth-concatenation node lowers to a null unit
whatever its input operands hold (they are never resolved), and an
enabled one with N valid inputs lowers to a unit wired with exactly
those N resolved inputs in node order. -/
theorem depth_concat_disabled_null_enabled_wired (ctx : GraphContext) (env : TensorEnv) :
    (∀ n : Node, n.nodeType = NodeType.DepthConcatenateLayer →
      n.numOutputs = 1 → n.enabled = false →
      GCFunctionFactory.create (some n) ctx env = Except.ok (env, none))
    ∧ (∀ (ids : List BackingId) (ho : Option BackingId) (n : Node),
      n.nodeType = NodeType.DepthConcatenateLayer →
      n.enabled = true → 0 < ids.length →
      n.inputs = ids.map (fun i => some ⟨Target.GC, some i⟩) →
      n.outputs = [some ⟨Target.GC, ho⟩] →
      GCFunctionFactory.create (some n) ctx env =
        Except.ok (env, some (GCFunc.depthConcat (ids.map some) ho))
      ∧ (ids.map some).length = ids.length) := by
  constructor
  · intro n ht hno hen
    simp [GCFunctionFactory.create, ht, create_depth_concatenate_layer, hno, hen]
  · intro ids ho n ht hen _hlen hin hout
    refine ⟨?_, by simp⟩
    simp [GCFunctionFactory.create, ht, create_depth_concatenate_layer, hin, hout,
      Node.numInputs, Node.numOutputs, Node.input, Node.output, hen,
      resolve_inputs_valid]

/-- Witness for C7: a concrete disabled node whose only input reference
carries the wrong backend tag still lowers to a null unit, because the
operand is never resolved. -/
theorem depth_concat_disabled_null_enabled_wired_witness :
    GCFunctionFactory.create
      (some { nodeType := NodeType.DepthConcatenateLayer,
              inputs := [some ⟨Target.CL, some 0⟩], outputs := [gcRef 1],
              enabled := false }) ctxW envW = Except.ok (envW, none) :=
  (depth_concat_disabled_null_enabled_wired ctxW envW).1
    { nodeType := NodeType.DepthConcatenateLayer,
      inputs := [some ⟨Target.CL, some 0⟩], outputs := [gcRef 1],
      enabled := false } rfl rfl rfl

/-- Claim C8: on a convolution node with correct arity and resolvable
operands, the DIRECT hint builds the direct-convolution unit — whose
constructor takes no memory manager — and any other hint builds the
general convolution unit carrying the shared memory manager looked up
in the execution context for the GC backend. -/
theorem conv_algorithm_selection (ctx : GraphContext) (env : TensorEnv)
    (i w b o : BackingId) (n : Node)
    (ht : n.nodeType = NodeType.ConvolutionLayer)
    (hin : n.inputs = [some ⟨Target.GC, some i⟩, some ⟨Target.GC, some w⟩,
      some ⟨Target.GC, some b⟩])
    (hout : n.outputs = [some ⟨Target.GC, some o⟩]) :
    (n.convMethod = ConvolutionMethod.DIRECT →
      ∃ env2, GCFunctionFactory.create (some n) ctx env =
        Except.ok (env2, some (GCFunc.directConv (some i) (some w) (some b) (some o)
          n.convInfo)))
    ∧ (n.convMethod ≠ ConvolutionMethod.DIRECT →
      ∃ env2, GCFunctionFactory.create (some n) ctx env =
        Except.ok (env2, some (GCFunc.conv (get_memory_manager ctx Target.GC)
          (some i) (some w) (some b) (some o) n.convInfo))) := by
  constructor
  · intro hm
    by_cases hq : is_data_type_quantized_asymmetric (env i) = true
    · exact ⟨fun j => if j = b then DataType.S32 else env j, by
        simp [GCFunctionFactory.create, ht, create_convolution_layer, hin, hout,
          Node.numInputs, Node.numOutputs, Node.input, Node.output, read_data_type,
          set_data_type, hq, hm]⟩
    · rw [Bool.not_eq_true] at hq
      exact ⟨env, by
        simp [GCFunctionFactory.create, ht, create_convolution_layer, hin, hout,
          Node.numInputs, Node.numOutputs, Node.input, Node.output, read_data_type,
          set_data_type, hq, hm]⟩
  · intro hm
    by_cases hq : is_data_type_quantized_asymmetric (env i) = true
    · exact ⟨fun j => if j = b then DataType.S32 else env j, by
        simp [GCFunctionFactory.create, ht, create_convolution_layer, hin, hout,
          Node.numInputs, Node.numOutputs, Node.input, Node.output, read_data_type,
          set_data_type, hq, hm]⟩
    · rw [Bool.not_eq_true] at hq
      exact ⟨env, by
        simp [GCFunctionFactory.create, ht, create_convolution_layer, hin, hout,
          Node.numInputs, Node.numOutputs, Node.input, Node.output, read_data_type,
          set_data_type, hq, hm]⟩

/-- Witness for C8: a concrete GEMM-hinted convolution node builds the
memory-managed general convolution unit with the GC memory manager. -/
theorem conv_algorithm_selection_witness :
    ∃ env2, GCFunctionFactory.create
      (some { nodeType := NodeType.ConvolutionLayer,
              inputs := [gcRef 0, gcRef 1, gcRef 2], outputs := [gcRef 3],
              convMethod := ConvolutionMethod.GEMM }) ctxW envW =
      Except.ok (env2, some (GCFunc.conv (get_memory_manager ctxW Target.GC)
        (some 0) (some 1) (some 2) (some 3) 0)) :=
  (conv_algorithm_selection ctxW envW 0 1 2 3
    { nodeType := NodeType.ConvolutionLayer,
      inputs := [gcRef 0, gcRef 1, gcRef 2], outputs := [gcRef 3],
      convMethod := ConvolutionMethod.GEMM }
    rfl rfl rfl).2 (by decide)

/-- Claim C9: every softmax lowering builds its unit with the shared
memory manager looked up in the execution context under the CL backend
tag, which differs from the GC backend this factory serves and from the
GC target declared by the node's own tensors. -/
theorem softmax_cross_backend_memory_manager (ctx : GraphContext) (env : TensorEnv)
    (i o : BackingId) (n : Node)
    (ht : n.nodeType = NodeType.SoftmaxLayer)
    (hin : n.inputs = [some ⟨Target.GC, some i⟩])
    (hout : n.outputs = [some ⟨Target.GC, some o⟩]) :
    GCFunctionFactory.create (some n) ctx env =
      Except.ok (env, some (GCFunc.softmax (get_memory_manager ctx Target.CL)
        (some i) (some o) n.beta))
    ∧ Target.CL ≠ Target.GC := by
  refine ⟨?_, by decide⟩
  simp [GCFunctionFactory.create, ht, create_softmax_layer, hin, hout,
    Node.numInputs, Node.numOutputs, Node.input, Node.output, errorOn]

/-- Witness for C9: a concrete softmax node is lowered with the memory
manager registered for CL. -/
theorem softmax_cross_backend_memory_manager_witness :
    GCFunctionFactory.create
      (some { nodeType := NodeType.SoftmaxLayer, inputs := [gcRef 0],
              outputs := [gcRef 1] }) ctxW envW =
      Except.ok (envW, some (GCFunc.softmax (get_memory_manager ctxW Target.CL)
        (some 0) (some 1) 0))
    ∧ Target.CL ≠ Target.GC :=
  softmax_cross_backend_memory_manager ctxW envW 0 1
    { nodeType := NodeType.SoftmaxLayer, inputs := [gcRef 0], outputs := [gcRef 1] }
    rfl rfl rfl

/-- Claim C10: in the fully connected lowerer the unit is constructed
and configured before any null-operand assertion is evaluated — the
execution trace is exactly resolution of the four operands, unit
construction, the configure call, and only then the null checks on
input, weights and output (each reached only while the previous ones
pass) — the bias is never null-checked anywhere in the trace, and a
node whose input operand resolves to null still fails only after
construction and configuration. -/
theorem fully_connected_configure_before_checks (ctx : GraphContext) (env : TensorEnv)
    (hi hw hb ho : Option BackingId) (n : Node)
    (hin : n.inputs = [some ⟨Target.GC, hi⟩, some ⟨Target.GC, hw⟩,
      some ⟨Target.GC, hb⟩])
    (hout : n.outputs = [some ⟨Target.GC, ho⟩]) :
    create_fully_connected_trace n =
      [FCEvent.resolveOperand "input", FCEvent.resolveOperand "weights",
       FCEvent.resolveOperand "biases", FCEvent.resolveOperand "output",
       FCEvent.constructUnit, FCEvent.configure hi hw hb ho,
       FCEvent.nullCheck "input" hi]
      ++ (if hi = none then []
          else [FCEvent.nullCheck "weights" hw]
            ++ if hw = none then [] else [FCEvent.nullCheck "output" ho])
    ∧ (∀ v, FCEvent.nullCheck "biases" v ∉ create_fully_connected_trace n)
    ∧ (hi = none → ∃ m, create_fully_connected_layer n ctx env =
        Except.error (GCError.assertFail m)) := by
  have htr : create_fully_connected_trace n =
      [FCEvent.resolveOperand "input", FCEvent.resolveOperand "weights",
       FCEvent.resolveOperand "biases", FCEvent.resolveOperand "output",
       FCEvent.constructUnit, FCEvent.configure hi hw hb ho,
       FCEvent.nullCheck "input" hi]
      ++ (if hi = none then []
          else [FCEvent.nullCheck "weights" hw]
            ++ if hw = none then [] else [FCEvent.nullCheck "output" ho]) := by
    simp [create_fully_connected_trace, hin, hout, Node.numInputs, Node.numOutputs,
      Node.input, Node.output]
  refine ⟨htr, ?_, ?_⟩
  · intro v
    rw [htr]
    by_cases h1 : hi = none <;> by_cases h2 : hw = none <;> simp [h1, h2]
  · intro h1
    subst h1
    simp [create_fully_connected_layer, hin, hout, Node.numInputs, Node.numOutputs,
      Node.input, Node.output, errorOn]

/-- Witness for C10: a concrete fully connected node whose input
resolves to null is still fatal only through the post-configuration
assertion. -/
theorem fully_connected_configure_before_checks_witness :
    ∃ m, create_fully_connected_layer
      { nodeType := NodeType.FullyConnectedLayer,
        inputs := [some ⟨Target.GC, none⟩, gcRef 1, gcRef 2],
        outputs := [gcRef 3] } ctxW envW = Except.error (GCError.assertFail m) :=
  (fully_connected_configure_before_checks ctxW envW none (some 1) (some 2) (some 3)
    { nodeType := NodeType.FullyConnectedLayer,
      inputs := [some ⟨Target.GC, none⟩, gcRef 1, gcRef 2],
      outputs := [gcRef 3] } rfl rfl).2.2 rfl

end ComputeLib
